import Mathlib

/-!
Verification of the `http/auth` session-authentication handler of
planetary-social/go-toolbelt, shallowly embedded in Lean 4.

Time (`time.Time`, `time.Duration`) is modelled as `Int` (nanoseconds since
epoch); `time.Now().After(t)` is `now > t`, `time.Now().Add(d)` is `now + d`.
The gorilla session is a record with an `IsNew` flag, a value map from the
namespaced `sessionKey` type, and the `Options.MaxAge` directive.  Fallible
collaborator calls (store `Get`, `Save`, verifier `Check`) are passed in as
explicit `Except` / `Option` results.
-/

namespace GoToolbelt.Auth

/-- Go `interface{}` values that flow through the session: `nil`, the test
identity values (ints and strings), and `time.Time` timestamps. -/
inductive GoValue where
  | goNil : GoValue
  | goInt (n : Int) : GoValue
  | goStr (s : String) : GoValue
  | goTime (t : Int) : GoValue
  deriving DecidableEq, Repr

/-- The namespaced `sessionKey` type of auth.go (`userKey`, `userTimeout`)
together with application-level keys sharing the same store. -/
inductive SessKey where
  | userKey : SessKey
  | userTimeout : SessKey
  | appKey (s : String) : SessKey
  deriving DecidableEq, Repr

/-- The error taxonomy: the two sentinel errors of auth.go, the local
`fmt.Errorf("method should be POST")`, and opaque collaborator errors. -/
inductive AuthError where
  | errBadLogin : AuthError
  | errNotAuthorized : AuthError
  | errMethodShouldBePost : AuthError
  | parseErr (s : String) : AuthError
  | storeErr (s : String) : AuthError
  | verifierErr (s : String) : AuthError
  deriving DecidableEq, Repr

/-- `err.Error()` for the modelled errors. -/
def AuthError.text : AuthError → String
  | .errBadLogin => "Bad Login"
  | .errNotAuthorized => "Not Authorized"
  | .errMethodShouldBePost => "method should be POST"
  | .parseErr s => s
  | .storeErr s => s
  | .verifierErr s => s

/-- A gorilla session as auth.go sees it: freshness flag, value map
(`none` = key absent, `some .goNil` = key present holding Go `nil`),
and the `Options.MaxAge` removal directive. -/
structure Session where
  IsNew : Bool
  Values : SessKey → Option GoValue
  MaxAge : Int

/-- AuthenticateRequest's per-session validation, in state-passing form.
The source performs no writes to `session.Values`, no `Save`, and no
assignment to `session.Options`, so the session component is the input
session at every return site.  Mirrors auth.go `AuthenticateRequest`
after the store `Get`: `IsNew` check, `Values[userKey]` presence,
`Values[userTimeout]` presence, `time.Time` type assertion, and
`time.Now().After(tout)` (i.e. `now > tout`) expiry check. -/
def authenticateSessionS (s : Session) (now : Int) :
    Except AuthError GoValue × Session :=
  if s.IsNew then (.error .errNotAuthorized, s)
  else
    match s.Values .userKey with
    | none => (.error .errNotAuthorized, s)
    | some user =>
      match s.Values .userTimeout with
      | none => (.error .errNotAuthorized, s)
      | some t =>
        match t with
        | .goTime tout =>
          if now > tout then (.error .errNotAuthorized, s) else (.ok user, s)
        | _ => (.error .errNotAuthorized, s)

/-- The returned `(identity, error)` of the per-session validation. -/
def authenticateSession (s : Session) (now : Int) : Except AuthError GoValue :=
  (authenticateSessionS s now).1

/-- auth.go `AuthenticateRequest`: a store `Get` failure is returned
verbatim (`return nil, err`); otherwise the session is validated. -/
def authenticateRequest (getResult : Except AuthError Session) (now : Int) :
    Except AuthError GoValue :=
  match getResult with
  | .error e => .error e
  | .ok s => authenticateSession s now

/-- The session after SaveUserSession's two writes:
`session.Values[userKey] = userData` and
`session.Values[userTimeout] = time.Now().Add(ah.lifetime)`. -/
def sessionAfterLogin (s : Session) (userData : GoValue) (now lifetime : Int) :
    Session :=
  { s with
    Values := fun k =>
      if k = .userTimeout then some (.goTime (now + lifetime))
      else if k = .userKey then some userData
      else s.Values k }

/-- auth.go `SaveUserSession`: store `Get`, the two session writes, then
`Save`.  A `Get` or `Save` error is returned to the caller; on success the
saved session state is returned (`nil` error in Go). -/
def saveUserSession (getResult : Except AuthError Session)
    (saveErr : Option AuthError) (userData : GoValue) (now lifetime : Int) :
    Except AuthError Session :=
  match getResult with
  | .error e => .error e
  | .ok s =>
    let s2 := sessionAfterLogin s userData now lifetime
    match saveErr with
    | some e => .error e
    | none => .ok s2

/-- The login request as Authorize reads it: `r.Method`, whether
`r.ParseForm()` succeeds (with its error text when not), and the form
fields `user` and `pass`. -/
structure Request where
  method : String
  formParses : Bool
  parseErrText : String
  user : String
  pass : String

/-- What Authorize writes to the response: exactly one error-handler
invocation `ah.errorHandler(w, r, err, code)`, or the final
`http.Redirect(w, r, path, 303)`. -/
inductive HttpOutcome where
  | errorHandler (e : AuthError) (code : Nat) : HttpOutcome
  | redirect (path : String) (code : Nat) : HttpOutcome
  deriving DecidableEq, Repr

/-- Observable result of one Authorize call: the response written, whether
`ah.auther.Check` was invoked, whether `session.Save` was invoked, and the
session state persisted by a successful Save (`none` otherwise). -/
structure AuthorizeOutcome where
  response : HttpOutcome
  checkCalled : Bool
  saveCalled : Bool
  savedSession : Option Session

/-- auth.go `Authorize`: method check, `ParseForm`, empty-field check,
`Check(user, pass)` with `ErrBadLogin` mapped to 400 and everything else
to 500, then `SaveUserSession` (500 on failure) and the 303 redirect to
the landing path. -/
def authorize (check : String → String → Except AuthError GoValue)
    (getResult : Except AuthError Session) (saveErr : Option AuthError)
    (req : Request) (now lifetime : Int) (redirLanding : String) :
    AuthorizeOutcome :=
  if req.method ≠ "POST" then
    ⟨.errorHandler .errMethodShouldBePost 400, false, false, none⟩
  else if ¬ req.formParses then
    ⟨.errorHandler (.parseErr req.parseErrText) 500, false, false, none⟩
  else if req.user = "" ∨ req.pass = "" then
    ⟨.errorHandler .errBadLogin 400, false, false, none⟩
  else
    match check req.user req.pass with
    | .error e =>
      ⟨.errorHandler e (if e = .errBadLogin then 400 else 500), true, false,
        none⟩
    | .ok id =>
      match saveUserSession getResult saveErr id now lifetime with
      | .error e => ⟨.errorHandler e 500, true, getResult.isOk, none⟩
      | .ok s2 => ⟨.redirect redirLanding 303, true, true, some s2⟩

/-- The session after Logout's writes:
`session.Values[userTimeout] = time.Now().Add(-ah.lifetime)` and
`session.Options.MaxAge = -1`. -/
def sessionAfterLogout (s : Session) (now lifetime : Int) : Session :=
  { s with
    Values := fun k =>
      if k = .userTimeout then some (.goTime (now - lifetime))
      else s.Values k,
    MaxAge := -1 }

/-- Observable result of one Logout call. -/
structure LogoutOutcome where
  response : HttpOutcome
  savedSession : Option Session

/-- auth.go `Logout`: store `Get` (failure → error handler, 500), the
back-dated `userTimeout` write and `MaxAge = -1`, `Save` (failure → error
handler, 500), then the 303 redirect to the logout path. -/
def logout (getResult : Except AuthError Session) (saveErr : Option AuthError)
    (now lifetime : Int) (redirLogout : String) : LogoutOutcome :=
  match getResult with
  | .error e => ⟨.errorHandler e 500, none⟩
  | .ok s =>
    let s2 := sessionAfterLogout s now lifetime
    match saveErr with
    | some e => ⟨.errorHandler e 500, none⟩
    | none => ⟨.redirect redirLogout 303, some s2⟩

/-- A written plain-text response: body and status code, as produced by an
error handler, the not-authorized handler, or a downstream handler. -/
structure TextResponse where
  body : String
  code : Nat
  deriving DecidableEq, Repr

/-- Observable result of the Authenticate middleware on one request. -/
structure GateOutcome where
  downstreamCalled : Bool
  response : TextResponse
  deriving DecidableEq, Repr

/-- auth.go `Authenticate`: calls `AuthenticateRequest`; on error invokes
`ah.notAuthorizedHandler` and returns without calling `next`; otherwise
invokes `next.ServeHTTP`. -/
def authenticateMW (notAuthorizedHandler : TextResponse)
    (next : TextResponse) (getResult : Except AuthError Session) (now : Int) :
    GateOutcome :=
  match authenticateRequest getResult now with
  | .error _ => ⟨false, notAuthorizedHandler⟩
  | .ok _ => ⟨true, next⟩

/-- `defaultSessionName` of auth.go. -/
def defaultSessionName : String := "AuthSession"

/-- An error handler `func(w, r, err, code)`, observed as the text
response it writes. -/
def ErrHandler := AuthError → Nat → TextResponse

/-- The default error handler: `http.Error(w, err.Error(), code)` —
the error text plus a trailing newline as body, with the given status. -/
def defaultErrorHandler : ErrHandler := fun e code => ⟨e.text ++ "\x0a", code⟩

/-- The Handler configuration built by `NewHandler`.  The `auther` and
`store` references are modelled by presence flags (only nil-ness is ever
inspected); `lifetime` is a `time.Duration` in nanoseconds;
`notAuthorizedHandler` is observed as the response it writes. -/
structure Handler where
  hasStore : Bool
  lifetime : Int
  redirLanding : String
  redirLogout : String
  sessionName : String
  errorHandler : Option ErrHandler
  notAuthorizedHandler : Option TextResponse

/-- The zero value `var ah Handler` that `NewHandler` starts from. -/
def Handler.zero : Handler :=
  ⟨false, 0, "", "", "", none, none⟩

/-- `Option func(*Handler) error`: mutates the Handler under construction
or fails. -/
def HandlerOpt := Handler → Except String Handler

/-- The option-application loop of `NewHandler`: first failing option
aborts construction. -/
def applyOptions (ah : Handler) : List HandlerOpt → Except String Handler
  | [] => .ok ah
  | o :: rest =>
    match o ah with
    | .error e => .error e
    | .ok ah2 => applyOptions ah2 rest

/-- `5 * time.Minute` in nanoseconds. -/
def fiveMinutes : Int := 5 * 60 * 1000000000

/-- The defaulting block of `NewHandler`, applied in source order after all
options ran: lifetime, landing redirect, logout redirect (to the landing
redirect), session name, error handler, not-authorized handler (which
delegates to the — by then defaulted — error handler with
`ErrNotAuthorized` and 401). -/
def applyDefaults (ah : Handler) : Handler :=
  let ah := if ah.lifetime = 0 then { ah with lifetime := fiveMinutes } else ah
  let ah :=
    if ah.redirLanding = "" then { ah with redirLanding := "/" } else ah
  let ah :=
    if ah.redirLogout = "" then { ah with redirLogout := ah.redirLanding }
    else ah
  let ah :=
    if ah.sessionName = "" then { ah with sessionName := defaultSessionName }
    else ah
  let ah :=
    match ah.errorHandler with
    | none => { ah with errorHandler := some defaultErrorHandler }
    | some _ => ah
  match ah.notAuthorizedHandler with
  | none =>
    { ah with
      notAuthorizedHandler :=
        some (ah.errorHandler.getD defaultErrorHandler
          AuthError.errNotAuthorized 401) }
  | some _ => ah

/-- auth.go `NewHandler`: runs the options, fails if any option fails or
if no session store was set, then applies the defaults. -/
def newHandler (options : List HandlerOpt) : Except String Handler :=
  match applyOptions Handler.zero options with
  | .error e => .error e
  | .ok ah =>
    if ah.hasStore = false then .error "please set a session.Store"
    else .ok (applyDefaults ah)

/-!  Spec-side predicates and helper lemmas.  -/

/-- The spec's authentication invariant, read literally:
`!IsNew ∧ identityKey present ∧ expiryKey present ∧ expiryKey is a
timestamp ∧ now < expiryKey` (strict). -/
def specAuthenticatedStrict (s : Session) (now : Int) : Bool :=
  !s.IsNew && (s.Values SessKey.userKey).isSome &&
    (match s.Values SessKey.userTimeout with
     | some (.goTime tout) => decide (now < tout)
     | _ => false)

/-- The invariant the code actually enforces: as above but with
`now ≤ expiryKey` (the code rejects only when `time.Now().After(tout)`,
i.e. when `now > tout`). -/
def specAuthenticatedAmended (s : Session) (now : Int) : Bool :=
  !s.IsNew && (s.Values SessKey.userKey).isSome &&
    (match s.Values SessKey.userTimeout with
     | some (.goTime tout) => decide (now ≤ tout)
     | _ => false)

/-- A session as reconstructed by the session store from a valid cookie on
a subsequent request: same values, but not new. -/
def asLoaded (s : Session) : Session := { s with IsNew := false }

/-- A fresh session with no values, as the store creates when the request
carries no valid cookie. -/
def freshSession : Session := ⟨true, fun _ => none, 0⟩

/-- A loaded (not new) session holding identity `23` and expiry
timestamp `100`, used to probe the expiry boundary. -/
def boundarySession : Session :=
  { IsNew := false,
    Values := fun k =>
      match k with
      | SessKey.userKey => some (.goInt 23)
      | SessKey.userTimeout => some (.goTime 100)
      | _ => none,
    MaxAge := 0 }

/-- The test suite's verifier mock: maps exactly
`("testUser", "testPassw")` to identity `23`, everything else to
`ErrBadLogin`. -/
def testCheck : String → String → Except AuthError GoValue := fun u p =>
  if u = "testUser" && p = "testPassw" then .ok (.goInt 23)
  else .error .errBadLogin

/-- A verifier that accepts anything and returns a `nil` identity with a
`nil` error. -/
def nilCheck : String → String → Except AuthError GoValue :=
  fun _ _ => .ok .goNil

/-- A well-formed login request carrying the test credentials. -/
def testReq : Request := ⟨"POST", true, "", "testUser", "testPassw"⟩

/-- The `WithStore` option: sets the session store. -/
def setStoreOpt : HandlerOpt := fun ah => .ok { ah with hasStore := true }

/-- An option that fails validation. -/
def failOpt : HandlerOpt := fun _ => .error "option failed"

/-!  Helper lemmas.  -/

/-- Characterization of the per-session validation by the four gates of the
source: freshness, identity presence, well-typed expiry, and the
non-strict time comparison. -/
theorem authenticateSession_eq (s : Session) (now : Int) :
    authenticateSession s now =
      match s.IsNew, s.Values SessKey.userKey,
            s.Values SessKey.userTimeout with
      | false, some u, some (.goTime tout) =>
        if now ≤ tout then .ok u else .error .errNotAuthorized
      | _, _, _ => .error .errNotAuthorized := by
  unfold authenticateSession authenticateSessionS
  cases hn : s.IsNew <;>
    cases hu : s.Values SessKey.userKey <;>
      cases ht : s.Values SessKey.userTimeout <;> simp
  case false.some.some v t =>
    cases t <;> simp
    case goTime tout =>
      by_cases h : now ≤ tout
      · simp [h, not_lt.mpr h]
      · simp [h, lt_of_not_le h]

/-- The per-session validation succeeds exactly on the sessions accepted by
the non-strict invariant, returning the stored identity. -/
theorem authenticateSession_if (s : Session) (now : Int) :
    authenticateSession s now =
      if specAuthenticatedAmended s now then
        Except.ok ((s.Values SessKey.userKey).getD .goNil)
      else Except.error .errNotAuthorized := by
  rw [authenticateSession_eq]
  unfold specAuthenticatedAmended
  cases hn : s.IsNew <;> cases hu : s.Values SessKey.userKey <;>
    cases ht : s.Values SessKey.userTimeout <;> simp
  case false.some.some v t =>
    cases t <;> simp

/-- C1 (counterexample): the claim requires `(identity, nil)` only when the
current time is strictly before the expiry timestamp, but at `now = 100`
with stored expiry `100` the strict invariant is false while
AuthenticateRequest still returns the identity with a nil error: the code
rejects only when `time.Now().After(tout)`, which is false at equality. -/
theorem c1_strict_counterexample :
    specAuthenticatedStrict boundarySession 100 = false ∧
      authenticateRequest (Except.ok boundarySession) 100 =
        Except.ok (GoValue.goInt 23) :=
  ⟨rfl, rfl⟩

/-- C1 (amended): AuthenticateRequest returns `(identity, nil)` iff the
loaded session is not new, the identity key is present, the expiry key is
present and holds a timestamp, and the current time is at or before (not
after) the expiry timestamp; in every other case where the store load
succeeds it returns ErrNotAuthorized, and a store `Get` failure is
returned verbatim. -/
theorem c1_authenticateRequest_amended (s : Session) (now : Int)
    (e : AuthError) :
    (∀ u : GoValue,
      authenticateRequest (Except.ok s) now = Except.ok u ↔
        specAuthenticatedAmended s now = true ∧
          s.Values SessKey.userKey = some u) ∧
    (authenticateRequest (Except.ok s) now =
        Except.error AuthError.errNotAuthorized ↔
      specAuthenticatedAmended s now = false) ∧
    authenticateRequest (Except.error e) now = Except.error e := by
  have hchar := authenticateSession_eq s now
  refine ⟨?_, ?_, rfl⟩
  · intro u
    simp only [authenticateRequest, hchar, specAuthenticatedAmended]
    cases hn : s.IsNew <;> cases hu : s.Values SessKey.userKey <;>
      cases ht : s.Values SessKey.userTimeout <;> simp_all
    case false.some.some v t =>
      cases t <;> simp_all
      case goTime tout =>
        by_cases h : now ≤ tout <;> simp [h]
  · simp only [authenticateRequest, hchar, specAuthenticatedAmended]
    cases hn : s.IsNew <;> cases hu : s.Values SessKey.userKey <;>
      cases ht : s.Values SessKey.userTimeout <;> simp_all
    case false.some.some v t =>
      cases t <;> simp_all

/-- C2: when the verifier accepts `(user, pass)` with identity `id` and a
nil error, a successful Authorize (store `Get` and `Save` succeed) persists
a session from which AuthenticateRequest, at any time strictly before login
time plus the configured lifetime, returns exactly that identity with a
nil error. -/
theorem c2_login_roundtrip
    (check : String → String → Except AuthError GoValue)
    (s : Session) (req : Request) (id : GoValue)
    (tLogin t lifetime : Int) (rl : String)
    (hm : req.method = "POST") (hf : req.formParses = true)
    (hu : req.user ≠ "") (hp : req.pass ≠ "")
    (hc : check req.user req.pass = Except.ok id)
    (ht : t < tLogin + lifetime) :
    (authorize check (Except.ok s) none req tLogin lifetime rl).savedSession
        = some (sessionAfterLogin s id tLogin lifetime) ∧
    authenticateRequest
        (Except.ok (asLoaded (sessionAfterLogin s id tLogin lifetime))) t
      = Except.ok id := by
  constructor
  · simp [authorize, hm, hf, hu, hp, hc, saveUserSession]
  · rw [authenticateRequest, authenticateSession_eq]
    simp [asLoaded, sessionAfterLogin, le_of_lt ht]

/-- C2 witness: the test credentials, identity `23`, login at time `0`,
authentication at time `10` within the five-minute lifetime. -/
theorem c2_login_roundtrip_witness :
    testReq.method = "POST" ∧ testReq.formParses = true ∧
    testReq.user ≠ "" ∧ testReq.pass ≠ "" ∧
    testCheck testReq.user testReq.pass = Except.ok (GoValue.goInt 23) ∧
    (10 : Int) < 0 + fiveMinutes ∧
    ((authorize testCheck (Except.ok freshSession) none testReq 0 fiveMinutes
        "/landingRedir").savedSession
      = some (sessionAfterLogin freshSession (GoValue.goInt 23) 0 fiveMinutes)
    ∧ authenticateRequest
        (Except.ok (asLoaded
          (sessionAfterLogin freshSession (GoValue.goInt 23) 0 fiveMinutes)))
        10
      = Except.ok (GoValue.goInt 23)) :=
  ⟨rfl, rfl, by decide, by decide, rfl, by decide,
    c2_login_roundtrip testCheck freshSession testReq (GoValue.goInt 23)
      0 10 fiveMinutes "/landingRedir" rfl rfl (by decide) (by decide) rfl
      (by decide)⟩

/-- C3: with a positive lifetime, a successful Logout saves the session
with the expiry back-dated to `now − lifetime` and the cookie marked for
removal, and redirects to the logout path with status 303; a `Get` or
`Save` failure goes to the error handler with status 500.  Every
subsequent AuthenticateRequest on the post-logout state (whether the store
loads it as new or not) at any time at or after the logout time returns
ErrNotAuthorized. -/
theorem c3_logout_invalidates (s : Session) (tLogout t lifetime : Int)
    (rl : String) (e : AuthError) (b : Bool)
    (hl : 0 < lifetime) (ht : tLogout ≤ t) :
    logout (Except.ok s) none tLogout lifetime rl =
        ⟨.redirect rl 303, some (sessionAfterLogout s tLogout lifetime)⟩ ∧
    (∀ so : Option AuthError,
      logout (Except.error e) so tLogout lifetime rl =
        ⟨.errorHandler e 500, none⟩) ∧
    logout (Except.ok s) (some e) tLogout lifetime rl =
        ⟨.errorHandler e 500, none⟩ ∧
    authenticateRequest
        (Except.ok { sessionAfterLogout s tLogout lifetime with IsNew := b })
        t
      = Except.error .errNotAuthorized := by
  refine ⟨rfl, fun so => rfl, rfl, ?_⟩
  rw [authenticateRequest, authenticateSession_eq]
  have hlt : ¬ t ≤ tLogout - lifetime := by omega
  cases b <;> simp [sessionAfterLogout, hlt]
  cases s.Values SessKey.userKey <;> simp
  omega

/-- C3 witness: logging out the freshly logged-in test session at time
`50` and replaying it at time `60`. -/
theorem c3_logout_invalidates_witness :
    (0 : Int) < fiveMinutes ∧ (50 : Int) ≤ 60 ∧
    authenticateRequest
        (Except.ok { sessionAfterLogout
            (sessionAfterLogin freshSession (GoValue.goInt 23) 0 fiveMinutes)
            50 fiveMinutes with IsNew := false })
        60
      = Except.error .errNotAuthorized :=
  ⟨by decide, by decide,
    (c3_logout_invalidates
      (sessionAfterLogin freshSession (GoValue.goInt 23) 0 fiveMinutes)
      50 60 fiveMinutes "/landingRedir" (AuthError.storeErr "boom") false
      (by decide) (by decide)).2.2.2⟩

/-- C4: Authorize's validations fire in order, each to exactly one
error-handler invocation: non-POST → 400 (any form state), parse failure →
500, empty user or pass → ErrBadLogin 400 — all three without calling the
verifier —; when Check is called, ErrBadLogin → 400 and any other error →
500. -/
theorem c4_authorize_validation_order
    (check : String → String → Except AuthError GoValue)
    (getResult : Except AuthError Session) (saveErr : Option AuthError)
    (now lifetime : Int) (rl : String)
    (reqA reqB reqC reqD : Request) (e : AuthError)
    (hA : reqA.method ≠ "POST")
    (hBm : reqB.method = "POST") (hBf : reqB.formParses = false)
    (hCm : reqC.method = "POST") (hCf : reqC.formParses = true)
    (hCe : reqC.user = "" ∨ reqC.pass = "")
    (hDm : reqD.method = "POST") (hDf : reqD.formParses = true)
    (hDu : reqD.user ≠ "") (hDp : reqD.pass ≠ "")
    (hDc : check reqD.user reqD.pass = Except.error e) :
    authorize check getResult saveErr reqA now lifetime rl =
        ⟨.errorHandler .errMethodShouldBePost 400, false, false, none⟩ ∧
    authorize check getResult saveErr reqB now lifetime rl =
        ⟨.errorHandler (.parseErr reqB.parseErrText) 500, false, false,
          none⟩ ∧
    authorize check getResult saveErr reqC now lifetime rl =
        ⟨.errorHandler .errBadLogin 400, false, false, none⟩ ∧
    authorize check getResult saveErr reqD now lifetime rl =
        ⟨.errorHandler e (if e = .errBadLogin then 400 else 500), true,
          false, none⟩ := by
  refine ⟨?_, ?_, ?_, ?_⟩
  · simp [authorize, hA]
  · simp [authorize, hBm, hBf]
  · rcases hCe with hCe | hCe <;> simp [authorize, hCm, hCf, hCe]
  · simp [authorize, hDm, hDf, hDu, hDp, hDc]

/-- C4 witness: a GET request, an unparsable POST, a POST with empty
fields, and a POST with wrong credentials under the test verifier. -/
theorem c4_authorize_validation_order_witness :
    ("GET" : String) ≠ "POST" ∧
    (("POST" : String) = "POST" ∧ false = false) ∧
    (("POST" : String) = "POST" ∧ true = true ∧
      (("" : String) = "" ∨ ("x" : String) = "")) ∧
    (("POST" : String) = "POST" ∧ true = true ∧
      ("wrongUser" : String) ≠ "" ∧ ("wrongPass" : String) ≠ "" ∧
      testCheck "wrongUser" "wrongPass" = Except.error .errBadLogin) ∧
    authorize testCheck (Except.ok freshSession) none
        ⟨"GET", true, "", "u", "p"⟩ 0 fiveMinutes "/" =
      ⟨.errorHandler .errMethodShouldBePost 400, false, false, none⟩ ∧
    authorize testCheck (Except.ok freshSession) none
        ⟨"POST", false, "bad body", "u", "p"⟩ 0 fiveMinutes "/" =
      ⟨.errorHandler (.parseErr "bad body") 500, false, false, none⟩ ∧
    authorize testCheck (Except.ok freshSession) none
        ⟨"POST", true, "", "", "x"⟩ 0 fiveMinutes "/" =
      ⟨.errorHandler .errBadLogin 400, false, false, none⟩ ∧
    authorize testCheck (Except.ok freshSession) none
        ⟨"POST", true, "", "wrongUser", "wrongPass"⟩ 0 fiveMinutes "/" =
      ⟨.errorHandler .errBadLogin
          (if AuthError.errBadLogin = .errBadLogin then 400 else 500), true,
        false, none⟩ :=
  ⟨by decide, ⟨rfl, rfl⟩, ⟨rfl, rfl, Or.inl rfl⟩,
    ⟨rfl, rfl, by decide, by decide, rfl⟩,
    c4_authorize_validation_order testCheck (Except.ok freshSession) none
      0 fiveMinutes "/"
      ⟨"GET", true, "", "u", "p"⟩ ⟨"POST", false, "bad body", "u", "p"⟩
      ⟨"POST", true, "", "", "x"⟩ ⟨"POST", true, "", "wrongUser", "wrongPass"⟩
      .errBadLogin (by decide) rfl rfl rfl rfl (Or.inl rfl) rfl rfl
      (by decide) (by decide) rfl⟩

/-- C5: on a successful Check, Authorize writes the identity under the
identity key and `now + lifetime` under the expiry key, Saves, and
redirects to the landing path with 303; a session `Get` or `Save` failure
goes to the error handler with 500 and persists nothing; a session state
is persisted (cookie set via Save) on the success path only.
SaveUserSession performs the same write-and-save with a caller-supplied
identity, returning errors to the caller. -/
theorem c5_authorize_success_path
    (check : String → String → Except AuthError GoValue)
    (s : Session) (req : Request) (id : GoValue)
    (now lifetime : Int) (rl : String) (e : AuthError)
    (hm : req.method = "POST") (hf : req.formParses = true)
    (hu : req.user ≠ "") (hp : req.pass ≠ "")
    (hc : check req.user req.pass = Except.ok id) :
    authorize check (Except.ok s) none req now lifetime rl =
        ⟨.redirect rl 303, true, true,
          some (sessionAfterLogin s id now lifetime)⟩ ∧
    (sessionAfterLogin s id now lifetime).Values SessKey.userKey = some id ∧
    (sessionAfterLogin s id now lifetime).Values SessKey.userTimeout =
        some (.goTime (now + lifetime)) ∧
    authorize check (Except.error e) none req now lifetime rl =
        ⟨.errorHandler e 500, true, false, none⟩ ∧
    authorize check (Except.ok s) (some e) req now lifetime rl =
        ⟨.errorHandler e 500, true, true, none⟩ ∧
    saveUserSession (Except.ok s) none id now lifetime =
        Except.ok (sessionAfterLogin s id now lifetime) ∧
    saveUserSession (Except.error e) none id now lifetime =
        Except.error e ∧
    saveUserSession (Except.ok s) (some e) id now lifetime =
        Except.error e := by
  refine ⟨?_, ?_, ?_, ?_, ?_, rfl, rfl, rfl⟩
  · simp [authorize, hm, hf, hu, hp, hc, saveUserSession]
  · simp [sessionAfterLogin]
  · simp [sessionAfterLogin]
  · simp [authorize, hm, hf, hu, hp, hc, saveUserSession, Except.isOk,
      Except.toBool]
  · simp [authorize, hm, hf, hu, hp, hc, saveUserSession, Except.isOk,
      Except.toBool]

/-- C5 witness: the test credentials and identity `23` at login time `0`
with the five-minute lifetime, with a store error probing the failure
conjuncts. -/
theorem c5_authorize_success_path_witness :
    testReq.method = "POST" ∧ testReq.formParses = true ∧
    testReq.user ≠ "" ∧ testReq.pass ≠ "" ∧
    testCheck testReq.user testReq.pass = Except.ok (GoValue.goInt 23) ∧
    authorize testCheck (Except.ok freshSession) none testReq 0 fiveMinutes
        "/landingRedir" =
      ⟨.redirect "/landingRedir" 303, true, true,
        some (sessionAfterLogin freshSession (GoValue.goInt 23) 0
          fiveMinutes)⟩ ∧
    (sessionAfterLogin freshSession (GoValue.goInt 23) 0 fiveMinutes).Values
        SessKey.userKey = some (GoValue.goInt 23) ∧
    authorize testCheck (Except.error (AuthError.storeErr "boom")) none
        testReq 0 fiveMinutes "/landingRedir" =
      ⟨.errorHandler (AuthError.storeErr "boom") 500, true, false, none⟩ :=
  have h := c5_authorize_success_path testCheck freshSession testReq
    (GoValue.goInt 23) 0 fiveMinutes "/landingRedir"
    (AuthError.storeErr "boom") rfl rfl (by decide) (by decide) rfl
  ⟨rfl, rfl, by decide, by decide, rfl, h.1, h.2.1, h.2.2.2.1⟩

/-- Field-wise description of the defaulting block. -/
theorem applyDefaults_fields (ah : Handler) :
    (applyDefaults ah).lifetime =
        (if ah.lifetime = 0 then fiveMinutes else ah.lifetime) ∧
    (applyDefaults ah).redirLanding =
        (if ah.redirLanding = "" then "/" else ah.redirLanding) ∧
    (applyDefaults ah).redirLogout =
        (if ah.redirLogout = "" then
          (if ah.redirLanding = "" then "/" else ah.redirLanding)
        else ah.redirLogout) ∧
    (applyDefaults ah).sessionName =
        (if ah.sessionName = "" then defaultSessionName
        else ah.sessionName) ∧
    (applyDefaults ah).errorHandler =
        some (ah.errorHandler.getD defaultErrorHandler) ∧
    (applyDefaults ah).notAuthorizedHandler =
        some (ah.notAuthorizedHandler.getD
          (ah.errorHandler.getD defaultErrorHandler
            AuthError.errNotAuthorized 401)) := by
  obtain ⟨st, lt, rla, rlo, sn, eh, nah⟩ := ah
  by_cases h1 : lt = (0 : Int) <;> by_cases h2 : rla = "" <;>
    by_cases h3 : rlo = "" <;> by_cases h4 : sn = "" <;>
      cases eh <;> cases nah <;>
        simp [applyDefaults, h1, h2, h3, h4]

/-- C6: NewHandler fails when any option fails or when no store was
supplied, and otherwise returns the option-built handler with the defaults
applied afterwards: lifetime 5 minutes when unset, landing redirect "/",
logout redirect defaulting to the (already defaulted) landing redirect,
session name "AuthSession", the default error handler writing the error
text as body with the given status, and the default not-authorized handler
delegating to the configured error handler with ErrNotAuthorized and
status 401. -/
theorem c6_newHandler_construction
    (optsE optsN optsS : List HandlerOpt) (msg : String) (ahN ahS : Handler)
    (hE : applyOptions Handler.zero optsE = Except.error msg)
    (hN : applyOptions Handler.zero optsN = Except.ok ahN)
    (hNs : ahN.hasStore = false)
    (hS : applyOptions Handler.zero optsS = Except.ok ahS)
    (hSs : ahS.hasStore = true) :
    newHandler optsE = Except.error msg ∧
    newHandler optsN = Except.error "please set a session.Store" ∧
    newHandler optsS = Except.ok (applyDefaults ahS) ∧
    (∀ ah : Handler, (applyDefaults ah).lifetime =
        if ah.lifetime = 0 then fiveMinutes else ah.lifetime) ∧
    (∀ ah : Handler, (applyDefaults ah).redirLanding =
        if ah.redirLanding = "" then "/" else ah.redirLanding) ∧
    (∀ ah : Handler, (applyDefaults ah).redirLogout =
        if ah.redirLogout = "" then
          (if ah.redirLanding = "" then "/" else ah.redirLanding)
        else ah.redirLogout) ∧
    (∀ ah : Handler, (applyDefaults ah).sessionName =
        if ah.sessionName = "" then defaultSessionName
        else ah.sessionName) ∧
    (∀ ah : Handler, (applyDefaults ah).errorHandler =
        some (ah.errorHandler.getD defaultErrorHandler)) ∧
    (∀ e c, defaultErrorHandler e c = ⟨e.text ++ "\x0a", c⟩) ∧
    (∀ ah : Handler, (applyDefaults ah).notAuthorizedHandler =
        some (ah.notAuthorizedHandler.getD
          (ah.errorHandler.getD defaultErrorHandler
            AuthError.errNotAuthorized 401))) := by
  refine ⟨?_, ?_, ?_, fun ah => (applyDefaults_fields ah).1,
    fun ah => (applyDefaults_fields ah).2.1,
    fun ah => (applyDefaults_fields ah).2.2.1,
    fun ah => (applyDefaults_fields ah).2.2.2.1,
    fun ah => (applyDefaults_fields ah).2.2.2.2.1,
    fun e c => rfl,
    fun ah => (applyDefaults_fields ah).2.2.2.2.2⟩
  · simp [newHandler, hE]
  · simp [newHandler, hN, hNs]
  · simp [newHandler, hS, hSs]

/-- C6 witness: a failing option list, an empty option list (no store),
and a store-only option list; the resulting handler carries every
default. -/
theorem c6_newHandler_construction_witness :
    applyOptions Handler.zero [failOpt] = Except.error "option failed" ∧
    applyOptions Handler.zero [] = Except.ok Handler.zero ∧
    Handler.zero.hasStore = false ∧
    applyOptions Handler.zero [setStoreOpt] =
        Except.ok { Handler.zero with hasStore := true } ∧
    ({ Handler.zero with hasStore := true } : Handler).hasStore = true ∧
    newHandler [failOpt] = Except.error "option failed" ∧
    newHandler [] = Except.error "please set a session.Store" ∧
    (applyDefaults { Handler.zero with hasStore := true }).lifetime =
        fiveMinutes ∧
    (applyDefaults { Handler.zero with hasStore := true }).redirLanding =
        "/" ∧
    (applyDefaults { Handler.zero with hasStore := true }).redirLogout =
        "/" ∧
    (applyDefaults { Handler.zero with hasStore := true }).sessionName =
        defaultSessionName :=
  have h := c6_newHandler_construction [failOpt] [] [setStoreOpt]
    "option failed" Handler.zero { Handler.zero with hasStore := true }
    rfl rfl rfl rfl rfl
  ⟨rfl, rfl, rfl, rfl, rfl, h.1, h.2.1,
    by rw [h.2.2.2.1]; rfl,
    by rw [h.2.2.2.2.1]; rfl,
    by rw [h.2.2.2.2.2.1]; rfl,
    by rw [h.2.2.2.2.2.2.1]; rfl⟩

/-- C7: the Authenticate middleware invokes the downstream handler exactly
when AuthenticateRequest returns a nil error — on a loaded session, exactly
when the session satisfies the (non-strict) authentication invariant; on
any AuthenticateRequest error, including a store load failure, the
not-authorized handler responds instead and downstream is never called.
The default not-authorized handler writes status 401 with the
"Not Authorized" error text as body. -/
theorem c7_authenticate_gate (nah next : TextResponse) (s : Session)
    (now : Int) (e : AuthError) :
    (authenticateMW nah next (Except.ok s) now).downstreamCalled =
        specAuthenticatedAmended s now ∧
    authenticateMW nah next (Except.ok s) now =
        (if specAuthenticatedAmended s now then ⟨true, next⟩
         else ⟨false, nah⟩) ∧
    authenticateMW nah next (Except.error e) now = ⟨false, nah⟩ ∧
    defaultErrorHandler AuthError.errNotAuthorized 401 =
        ⟨"Not Authorized\x0a", 401⟩ := by
  have h2 : authenticateMW nah next (Except.ok s) now =
      (if specAuthenticatedAmended s now then (⟨true, next⟩ : GateOutcome)
       else ⟨false, nah⟩) := by
    simp only [authenticateMW, authenticateRequest, authenticateSession_if]
    cases h : specAuthenticatedAmended s now <;> simp
  refine ⟨?_, h2, rfl, rfl⟩
  rw [h2]
  cases h : specAuthenticatedAmended s now <;> simp

/-- C8: AuthenticateRequest never mutates the session — the state-passing
embedding returns the session unchanged at every return site — so the
stored expiry is unchanged by authentication (no sliding expiry), and a
second call on the state left by a successful first call, at any time
still within the validity window, returns the same identity. -/
theorem c8_authenticate_idempotent (s : Session) (now1 now2 tout : Int)
    (u : GoValue)
    (htt : s.Values SessKey.userTimeout = some (GoValue.goTime tout))
    (h2 : now2 ≤ tout)
    (hok : authenticateSession s now1 = Except.ok u) :
    (∀ (s2 : Session) (t : Int), (authenticateSessionS s2 t).2 = s2) ∧
    ((authenticateSessionS s now1).2).Values SessKey.userTimeout =
        s.Values SessKey.userTimeout ∧
    authenticateSession ((authenticateSessionS s now1).2) now2 =
        Except.ok u := by
  have hframe : ∀ (s2 : Session) (t : Int),
      (authenticateSessionS s2 t).2 = s2 := by
    intro s2 t
    unfold authenticateSessionS
    cases hn : s2.IsNew <;> cases hu : s2.Values SessKey.userKey <;>
      cases ht : s2.Values SessKey.userTimeout <;> simp
    case false.some.some v tv =>
      cases tv <;> simp
      case goTime tv' =>
        by_cases h : t > tv' <;> simp [h]
  refine ⟨hframe, by rw [hframe], ?_⟩
  rw [hframe]
  rw [authenticateSession_eq] at hok ⊢
  rw [htt] at hok ⊢
  cases hn : s.IsNew <;> rw [hn] at hok <;>
    cases hu : s.Values SessKey.userKey <;> rw [hu] at hok <;>
      simp_all
  by_cases h1 : now1 ≤ tout <;> simp_all

/-- C8 witness: the post-login test session, authenticated at times `10`
and `20`, both within the five-minute window of expiry `fiveMinutes`. -/
theorem c8_authenticate_idempotent_witness :
    (asLoaded (sessionAfterLogin freshSession (GoValue.goInt 23) 0
        fiveMinutes)).Values SessKey.userTimeout =
      some (GoValue.goTime fiveMinutes) ∧
    (20 : Int) ≤ fiveMinutes ∧
    authenticateSession
        (asLoaded (sessionAfterLogin freshSession (GoValue.goInt 23) 0
          fiveMinutes)) 10 = Except.ok (GoValue.goInt 23) ∧
    authenticateSession
        ((authenticateSessionS
          (asLoaded (sessionAfterLogin freshSession (GoValue.goInt 23) 0
            fiveMinutes)) 10).2) 20 = Except.ok (GoValue.goInt 23) :=
  ⟨by simp [asLoaded, sessionAfterLogin],
    by decide,
    by rw [authenticateSession_eq]; simp [asLoaded, sessionAfterLogin]; decide,
    (c8_authenticate_idempotent
      (asLoaded (sessionAfterLogin freshSession (GoValue.goInt 23) 0
        fiveMinutes)) 10 20 fiveMinutes (GoValue.goInt 23)
      (by simp [asLoaded, sessionAfterLogin]) (by decide)
      (by rw [authenticateSession_eq]
          simp [asLoaded, sessionAfterLogin]; decide)).2.2⟩

/-- C9: on the Logout success path only the expiry key is overwritten (to
`now − lifetime`) and the cookie-removal directive `MaxAge = -1` is set:
the identity key, every other session value, and the freshness flag are
unchanged in the saved session state. -/
theorem c9_logout_frame (s : Session) (now lifetime : Int) (rl : String)
    (k : SessKey) (hk : k ≠ SessKey.userTimeout) :
    (logout (Except.ok s) none now lifetime rl).savedSession =
        some (sessionAfterLogout s now lifetime) ∧
    (sessionAfterLogout s now lifetime).Values SessKey.userTimeout =
        some (GoValue.goTime (now - lifetime)) ∧
    (sessionAfterLogout s now lifetime).MaxAge = -1 ∧
    (sessionAfterLogout s now lifetime).Values k = s.Values k ∧
    (sessionAfterLogout s now lifetime).Values SessKey.userKey =
        s.Values SessKey.userKey ∧
    (sessionAfterLogout s now lifetime).IsNew = s.IsNew := by
  refine ⟨rfl, by simp [sessionAfterLogout], rfl, ?_, ?_, rfl⟩
  · simp [sessionAfterLogout, hk]
  · simp [sessionAfterLogout]

/-- C9 witness: logging out the post-login test session at time `50`
leaves the identity key and an application key untouched. -/
theorem c9_logout_frame_witness :
    (SessKey.appKey "app") ≠ SessKey.userTimeout ∧
    (sessionAfterLogout
        (sessionAfterLogin freshSession (GoValue.goInt 23) 0 fiveMinutes)
        50 fiveMinutes).Values SessKey.userKey =
      some (GoValue.goInt 23) ∧
    (sessionAfterLogout
        (sessionAfterLogin freshSession (GoValue.goInt 23) 0 fiveMinutes)
        50 fiveMinutes).Values (SessKey.appKey "app") = none :=
  have h := c9_logout_frame
    (sessionAfterLogin freshSession (GoValue.goInt 23) 0 fiveMinutes)
    50 fiveMinutes "/landingRedir" (SessKey.appKey "app") (by decide)
  ⟨by decide, by rw [h.2.2.2.2.1]; rfl, by rw [h.2.2.2.1]; rfl⟩

/-- C10: a `nil` identity round-trips like any other: when Check returns
`(nil, nil)`, Authorize treats it as success and persists `nil` under the
identity key — the key is present in the value map holding `nil` — and a
later AuthenticateRequest within the window returns `(nil, nil)`,
authenticated, because the presence test is key membership, not a non-nil
check. -/
theorem c10_nil_identity
    (check : String → String → Except AuthError GoValue)
    (s : Session) (req : Request) (now t lifetime : Int) (rl : String)
    (hm : req.method = "POST") (hf : req.formParses = true)
    (hu : req.user ≠ "") (hp : req.pass ≠ "")
    (hc : check req.user req.pass = Except.ok GoValue.goNil)
    (ht : t ≤ now + lifetime) :
    authorize check (Except.ok s) none req now lifetime rl =
        ⟨.redirect rl 303, true, true,
          some (sessionAfterLogin s GoValue.goNil now lifetime)⟩ ∧
    (sessionAfterLogin s GoValue.goNil now lifetime).Values
        SessKey.userKey = some GoValue.goNil ∧
    authenticateRequest
        (Except.ok (asLoaded (sessionAfterLogin s GoValue.goNil now
          lifetime))) t
      = Except.ok GoValue.goNil := by
  refine ⟨?_, by simp [sessionAfterLogin], ?_⟩
  · simp [authorize, hm, hf, hu, hp, hc, saveUserSession]
  · rw [authenticateRequest, authenticateSession_eq]
    simp [asLoaded, sessionAfterLogin, ht]

/-- C10 witness: a verifier answering `(nil, nil)` to the test
credentials; authentication at time `10` returns the `nil` identity with a
nil error. -/
theorem c10_nil_identity_witness :
    testReq.method = "POST" ∧ testReq.formParses = true ∧
    testReq.user ≠ "" ∧ testReq.pass ≠ "" ∧
    nilCheck testReq.user testReq.pass = Except.ok GoValue.goNil ∧
    (10 : Int) ≤ 0 + fiveMinutes ∧
    authenticateRequest
        (Except.ok (asLoaded (sessionAfterLogin freshSession GoValue.goNil
          0 fiveMinutes))) 10
      = Except.ok GoValue.goNil :=
  ⟨rfl, rfl, by decide, by decide, rfl, by decide,
    (c10_nil_identity nilCheck freshSession testReq 0 10 fiveMinutes "/"
      rfl rfl (by decide) (by decide) rfl (by decide)).2.2⟩

end GoToolbelt.Auth
